import Mathlib

/-!
Verification development for the SafeRoute repository.

Shallow embedding of the decision logic of the repository:
* the smart recommendation engine (`getSmartRecommendation` in the routes
  list component),
* route characterization and route-set construction (`RouteContext.tsx`:
  `analyzeRouteCharacteristics`, the route transformation inside
  `fetchRoutes`, the synthesis loop that pads the set to three routes,
  and `clearAll`),
* the weather context (`WeatherContext.tsx`: `fetchWeather`,
  `generateAlerts`, `getRouteWeatherTags`).

JavaScript numbers are modelled as rationals (`ℚ`); timestamps in
milliseconds as integers (`ℤ`).  Network fetches are modelled by passing
the outcome of the fetch as an explicit argument.  Purely presentational
code (map rendering, JSX, toasts) is not modelled.
-/

namespace SafeRoute

/-- Weather condition enum of `WeatherContext.tsx` (`WeatherCondition`). -/
inductive WeatherCondition
  | clear | clouds | rain | snow | fog | thunderstorm | drizzle | mist
  deriving DecidableEq, Repr

/-- Time-of-day bands of `WeatherContext.tsx` (`TimeOfDay`). -/
inductive TimeOfDay
  | earlyMorning | morning | midday | afternoon | evening | night | lateNight
  deriving DecidableEq, Repr

/-- Route type tags (`'fastest' | 'safest' | 'comfortable' | 'scenic'`). -/
inductive RouteType
  | fastest | safest | comfortable | scenic
  deriving DecidableEq, Repr

/-- Lighting levels (`'well-lit' | 'mixed' | 'dark'`). -/
inductive LightingLevel
  | wellLit | mixed | dark
  deriving DecidableEq, Repr

/-- Sidewalk coverage (`'continuous' | 'partial' | 'none'`); the source
string `partial` is rendered as `partialCover` and `none` as `noCover`. -/
inductive SidewalkCoverage
  | continuous | partialCover | noCover
  deriving DecidableEq, Repr

/-- Hill levels (`'flat' | 'some-hills' | 'steep'`). -/
inductive HillLevel
  | flat | someHills | steep
  deriving DecidableEq, Repr

/-- Rest spot kinds (`'bench' | 'cafe' | 'park'`). -/
inductive RestSpotType
  | bench | cafe | park
  deriving DecidableEq, Repr

/-- Per-step crossing kinds (`'signal' | 'crosswalk' | 'busy-road'`). -/
inductive CrossingKind
  | signal | crosswalk | busyRoad
  deriving DecidableEq, Repr

/-- Per-step terrain kinds (`'flat' | 'slight-incline' | 'steep'`). -/
inductive TerrainKind
  | flat | slightIncline | steep
  deriving DecidableEq, Repr

/-- The stored user preference (`'safe' | 'fast' | 'comfy'`). -/
inductive Preference
  | safe | fast | comfy
  deriving DecidableEq, Repr

/-- Transport modes of `RouteContext.tsx` (`TransportMode`). -/
inductive TransportMode
  | drivingTraffic | walking | cycling
  deriving DecidableEq, Repr

/-- Alert severities of `WeatherContext.tsx`. -/
inductive Severity
  | yellow | orange | red
  deriving DecidableEq, Repr

/-- `Coordinates` of `RouteContext.tsx`. -/
structure Coordinates where
  lng : ℚ
  lat : ℚ
  deriving DecidableEq, Repr

/-- `Location` of `RouteContext.tsx`. -/
structure Location where
  name : String
  address : String
  coordinates : Coordinates
  deriving DecidableEq, Repr

/-- The optional per-step comfort descriptor of `RouteStep`. -/
structure StepComfort where
  lighting : LightingLevel
  terrain : TerrainKind
  shade : Bool
  crossing : Option CrossingKind := none
  restSpot : Option RestSpotType := none
  deriving DecidableEq, Repr

/-- The maneuver descriptor of `RouteStep`; `kind` is the raw string
(`'turn'`, `'end of road'`, `'depart'`, ...), stored as `maneuver.type`
in the source. -/
structure Maneuver where
  kind : String
  modifier : Option String := none
  location : ℚ × ℚ := (0, 0)
  deriving DecidableEq, Repr

/-- `RouteStep` of `RouteContext.tsx`. -/
structure RouteStep where
  instruction : String
  distance : ℚ
  duration : ℚ
  maneuver : Maneuver
  comfort : Option StepComfort := none
  deriving DecidableEq, Repr

/-- The `safety` record of `RouteData`. -/
structure SafetyProfile where
  lighting : String
  lightingLevel : LightingLevel
  crossings : String
  crossingCount : ℕ
  sidewalks : String
  sidewalkCoverage : SidewalkCoverage
  busyRoads : ℕ
  deriving DecidableEq, Repr

/-- The `comfort` record of `RouteData`. -/
structure ComfortProfile where
  hills : String
  hillLevel : HillLevel
  shade : String
  shadePercent : ℚ
  restSpots : String
  restSpotCount : ℕ
  restSpotTypes : List RestSpotType
  deriving DecidableEq, Repr

/-- `RouteData` of `RouteContext.tsx`.  The GeoJSON `geometry` field is
consumed only by the map layer and is not modelled. -/
structure RouteData where
  id : String
  type : RouteType
  title : String
  distance : ℚ
  duration : ℚ
  steps : List RouteStep
  tags : List String
  nightFriendly : Bool
  safety : SafetyProfile
  comfort : ComfortProfile
  deriving DecidableEq, Repr

/-- `CurrentWeather` of `WeatherContext.tsx`. -/
structure CurrentWeather where
  temp : ℚ
  feelsLike : ℚ
  condition : WeatherCondition
  description : String
  icon : String
  precipitation : ℚ
  humidity : ℚ
  windSpeed : ℚ
  uvIndex : ℚ
  visibility : ℚ
  deriving DecidableEq, Repr

/-- `HourlyForecast` of `WeatherContext.tsx`; `time` is an epoch
timestamp in milliseconds. -/
structure HourlyForecast where
  time : ℤ
  temp : ℚ
  condition : WeatherCondition
  description : String
  icon : String
  precipProbability : ℚ
  precipitation : ℚ
  deriving DecidableEq, Repr

/-- `WeatherData` of `WeatherContext.tsx`. -/
structure WeatherData where
  current : CurrentWeather
  hourly : List HourlyForecast
  lastUpdated : ℤ
  locationName : String
  deriving DecidableEq, Repr

/-- `WeatherAlert` of `WeatherContext.tsx`. -/
structure WeatherAlert where
  severity : Severity
  title : String
  message : String
  icon : String
  deriving DecidableEq, Repr

/-- `TimeContext` of `WeatherContext.tsx`. -/
structure TimeContext where
  hour : ℕ
  minute : ℕ
  timeOfDay : TimeOfDay
  isDark : Bool
  isRushHour : Bool
  isWeekend : Bool
  displayTime : String
  sunriseTime : Option String := none
  sunsetTime : Option String := none
  deriving DecidableEq, Repr

/-- The value computed for every route by the scoring loop of
`getSmartRecommendation`: the route together with its accumulated score
and the list of reason tags pushed while scoring. -/
structure ScoredRoute where
  route : RouteData
  score : ℚ
  reasons : List String
  deriving DecidableEq, Repr

/-- The value returned by `getSmartRecommendation` when the route list is
non-empty: `{ routeId: best.route.id, routeType: best.route.type, reason }`. -/
structure Recommendation where
  routeId : String
  routeType : RouteType
  reason : String
  deriving DecidableEq, Repr

/-! ### The smart recommendation engine

Embedding of `getSmartRecommendation` from the routes-list component.
The scoring loop accumulates `score` by a sequence of independent
additive rules and pushes reason tags; here the total is written as the
sum of one definition per source block (the blocks neither read the
accumulated score nor each other, so the sequential `+=` program equals
this sum, and the pushed tags are the concatenation of the per-block tag
lists in program order). -/

/-- `prefMap = { safe: 'safest', fast: 'fastest', comfy: 'comfortable' }`. -/
def prefMap : Preference → RouteType
  | .safe => .safest
  | .fast => .fastest
  | .comfy => .comfortable

/-- `isRaining`: the current condition is rain, drizzle or thunderstorm
(false when no weather snapshot is present). -/
def isRainingOf (w : Option WeatherData) : Bool :=
  match w with
  | some wd => decide (wd.current.condition = .rain ∨
      wd.current.condition = .drizzle ∨ wd.current.condition = .thunderstorm)
  | none => false

/-- `isSnowing`: the current condition is snow. -/
def isSnowingOf (w : Option WeatherData) : Bool :=
  match w with
  | some wd => decide (wd.current.condition = .snow)
  | none => false

/-- `isHotWeather`: temperature above 85°F when a snapshot is present;
otherwise the seasonal heuristic `month ∈ [5, 8]` on the current month
index (`new Date().getMonth()`, 0-based: June through September). -/
def isHotOf (w : Option WeatherData) (month : ℕ) : Bool :=
  match w with
  | some wd => decide (wd.current.temp > 85)
  | none => decide (5 ≤ month ∧ month ≤ 8)

/-- `isColdWeather`: temperature below 40°F (false without a snapshot). -/
def isColdOf (w : Option WeatherData) : Bool :=
  match w with
  | some wd => decide (wd.current.temp < 40)
  | none => false

/-- `isWindy`: wind speed above 15 mph (false without a snapshot). -/
def isWindyOf (w : Option WeatherData) : Bool :=
  match w with
  | some wd => decide (wd.current.windSpeed > 15)
  | none => false

/-- Base preference block: `+30` when the route type matches the mapped
preference. -/
def prefScore (pref : Preference) (r : RouteData) : ℚ :=
  if r.type = prefMap pref then 30 else 0

/-- Tags of the base preference block. -/
def prefTags (pref : Preference) (r : RouteData) : List String :=
  if r.type = prefMap pref then ["matches your preference"] else []

/-- Rain/snow block: `+10` per rest spot, `+20` for continuous
sidewalks, `−15` for the fastest route. -/
def rainSnowScore (rainingOrSnowing : Bool) (r : RouteData) : ℚ :=
  if rainingOrSnowing then
    10 * r.comfort.restSpotCount
      + (if r.safety.sidewalkCoverage = .continuous then 20 else 0)
      + (if r.type = .fastest then -15 else 0)
  else 0

/-- Tags of the rain/snow block. -/
def rainSnowTags (rainingOrSnowing : Bool) (r : RouteData) : List String :=
  if rainingOrSnowing then
    (if r.comfort.restSpotCount ≥ 2 then ["has shelter spots"] else [])
      ++ (if r.safety.sidewalkCoverage = .continuous then ["continuous sidewalks"] else [])
  else []

/-- Hot-weather block: `+0.4 ×` shade percent, `+20` for at least two
rest spots, `+15` for comfortable or scenic routes. -/
def hotScore (hot : Bool) (r : RouteData) : ℚ :=
  if hot then
    r.comfort.shadePercent * 0.4
      + (if r.comfort.restSpotCount ≥ 2 then 20 else 0)
      + (if r.type = .comfortable ∨ r.type = .scenic then 15 else 0)
  else 0

/-- Tags of the hot-weather block. -/
def hotTags (hot : Bool) (r : RouteData) : List String :=
  if hot then
    (if r.comfort.shadePercent ≥ 60 then ["good shade coverage"] else [])
      ++ (if r.comfort.restSpotCount ≥ 2 then ["rest stops available"] else [])
  else []

/-- Cold-weather block: `+25` for the fastest route, `−10` for scenic. -/
def coldScore (cold : Bool) (r : RouteData) : ℚ :=
  if cold then
    (if r.type = .fastest then 25 else 0) + (if r.type = .scenic then -10 else 0)
  else 0

/-- Tags of the cold-weather block. -/
def coldTags (cold : Bool) (r : RouteData) : List String :=
  if cold then (if r.type = .fastest then ["shorter exposure time"] else []) else []

/-- Windy block: `+15` for comfortable routes, `−10` for scenic. -/
def windScore (windy : Bool) (r : RouteData) : ℚ :=
  if windy then
    (if r.type = .comfortable then 15 else 0) + (if r.type = .scenic then -10 else 0)
  else 0

/-- Tags of the windy block. -/
def windTags (windy : Bool) (r : RouteData) : List String :=
  if windy then (if r.type = .comfortable then ["wind-protected"] else []) else []

/-- Dark-hours block: `+45` well-lit, `+10` mixed, `−20` otherwise, plus
`+30` when the route is night-friendly. -/
def darkScore (dark : Bool) (r : RouteData) : ℚ :=
  if dark then
    (match r.safety.lightingLevel with
      | .wellLit => 45
      | .mixed => 10
      | .dark => -20)
      + (if r.nightFriendly then 30 else 0)
  else 0

/-- Tags of the dark-hours block. -/
def darkTags (dark : Bool) (r : RouteData) : List String :=
  if dark then
    (if r.safety.lightingLevel = .wellLit then ["well-lit for dark hours"] else [])
      ++ (if r.nightFriendly then ["night-friendly"] else [])
  else []

/-- Late-night block: `+35` for the safest route, `−25` for scenic. -/
def lateScore (late : Bool) (r : RouteData) : ℚ :=
  if late then
    (if r.type = .safest then 35 else 0) + (if r.type = .scenic then -25 else 0)
  else 0

/-- Tags of the late-night block. -/
def lateTags (late : Bool) (r : RouteData) : List String :=
  if late then (if r.type = .safest then ["safest for late night"] else []) else []

/-- Rush-hour block: `+20` for continuous sidewalks, `−10` when there
are more than 4 crossings. -/
def rushScore (rush : Bool) (r : RouteData) : ℚ :=
  if rush then
    (if r.safety.sidewalkCoverage = .continuous then 20 else 0)
      + (if r.safety.crossingCount > 4 then -10 else 0)
  else 0

/-- Tags of the rush-hour block. -/
def rushTags (rush : Bool) (r : RouteData) : List String :=
  if rush then
    (if r.safety.sidewalkCoverage = .continuous then ["wide sidewalks for rush hour"] else [])
  else []

/-- Midday-sun block: `+0.3 ×` shade percent when it is midday, a
weather snapshot is present, and its temperature exceeds 75°F. -/
def middayScore (midday : Bool) (w : Option WeatherData) (r : RouteData) : ℚ :=
  match w with
  | some wd =>
      if midday ∧ wd.current.temp > 75 then r.comfort.shadePercent * 0.3 else 0
  | none => 0

/-- Tags of the midday-sun block. -/
def middayTags (midday : Bool) (w : Option WeatherData) (r : RouteData) : List String :=
  match w with
  | some wd =>
      if midday ∧ wd.current.temp > 75 then
        (if r.comfort.shadePercent ≥ 60 then ["shaded for midday sun"] else [])
      else []
  | none => []

/-- Weekend block: `+15` for scenic or comfortable routes on a weekend
that is not dark, raining or cold. -/
def weekendScore (weekend dark raining cold : Bool) (r : RouteData) : ℚ :=
  if weekend ∧ ¬dark ∧ ¬raining ∧ ¬cold then
    (if r.type = .scenic ∨ r.type = .comfortable then 15 else 0)
  else 0

/-- Tags of the weekend block. -/
def weekendTags (weekend dark raining cold : Bool) (r : RouteData) : List String :=
  if weekend ∧ ¬dark ∧ ¬raining ∧ ¬cold then
    (if r.type = .scenic ∨ r.type = .comfortable then ["nice for weekend stroll"] else [])
  else []

/-- Context-free safety bonuses: `+15` for continuous sidewalks, `+10`
for at most 3 crossings. -/
def bonusScore (r : RouteData) : ℚ :=
  (if r.safety.sidewalkCoverage = .continuous then 15 else 0)
    + (if r.safety.crossingCount ≤ 3 then 10 else 0)

/-- Tags of the context-free bonus block. -/
def bonusTags (r : RouteData) : List String :=
  if r.safety.crossingCount ≤ 3 then ["fewer crossings"] else []

/-- Length penalty: `−10` when the route duration exceeds 1.3 times the
mean duration of the candidate set. -/
def lengthPenalty (avg : ℚ) (r : RouteData) : ℚ :=
  if r.duration > avg * 1.3 then -10 else 0

/-- The total score of one route: the sum of all scoring blocks of
`getSmartRecommendation`, in program order.  `avg` is the mean duration
of the candidate set and `month` the current 0-based month index. -/
def scoreRoute (pref : Preference) (w : Option WeatherData) (month : ℕ)
    (tc : TimeContext) (avg : ℚ) (r : RouteData) : ℚ :=
  prefScore pref r
    + rainSnowScore (isRainingOf w || isSnowingOf w) r
    + hotScore (isHotOf w month) r
    + coldScore (isColdOf w) r
    + windScore (isWindyOf w) r
    + darkScore tc.isDark r
    + lateScore (tc.timeOfDay = .lateNight) r
    + rushScore tc.isRushHour r
    + middayScore (tc.timeOfDay = .midday) w r
    + weekendScore tc.isWeekend tc.isDark (isRainingOf w) (isColdOf w) r
    + bonusScore r
    + lengthPenalty avg r

/-- The reason tags accumulated for one route, in the push order of the
scoring loop. -/
def reasonsOf (pref : Preference) (w : Option WeatherData) (month : ℕ)
    (tc : TimeContext) (r : RouteData) : List String :=
  prefTags pref r
    ++ rainSnowTags (isRainingOf w || isSnowingOf w) r
    ++ hotTags (isHotOf w month) r
    ++ coldTags (isColdOf w) r
    ++ windTags (isWindyOf w) r
    ++ darkTags tc.isDark r
    ++ lateTags (tc.timeOfDay = .lateNight) r
    ++ rushTags tc.isRushHour r
    ++ middayTags (tc.timeOfDay = .midday) w r
    ++ weekendTags tc.isWeekend tc.isDark (isRainingOf w) (isColdOf w) r
    ++ bonusTags r

/-- `avgDuration`: the mean duration over the candidate set
(`routes.reduce((a, r) => a + r.duration, 0) / routes.length`). -/
def avgDurationOf (routes : List RouteData) : ℚ :=
  (routes.map (fun r => r.duration)).sum / routes.length

/-- The scored-routes list built by `routes.map(...)` in
`getSmartRecommendation`. -/
def scoredRoutesOf (pref : Preference) (w : Option WeatherData) (month : ℕ)
    (tc : TimeContext) (routes : List RouteData) : List ScoredRoute :=
  routes.map (fun r =>
    { route := r
      score := scoreRoute pref w month tc (avgDurationOf routes) r
      reasons := reasonsOf pref w month tc r })

/-- Stable insertion into a descending-sorted list: the new element goes
before the first element of not-larger score.  This realizes the stable
sort `scoredRoutes.sort((a, b) => b.score - a.score)` required by the
ECMAScript specification: ties keep input order. -/
def insertDesc (x : ScoredRoute) : List ScoredRoute → List ScoredRoute
  | [] => [x]
  | y :: ys => if x.score ≥ y.score then x :: y :: ys else y :: insertDesc x ys

/-- Stable sort by descending score (insertion sort; observationally
identical to any stable sort under the comparator `b.score - a.score`). -/
def sortDesc : List ScoredRoute → List ScoredRoute
  | [] => []
  | x :: xs => insertDesc x (sortDesc xs)

/-- The branches of the reason cascade of `getSmartRecommendation`,
one constructor per assignment to `reason`. -/
inductive ReasonBranch
  | rainR | snowR | heatR | coldR | windR | darkR | lateR | rushR
  | weekendR
  | alertR (title : String)
  | prefR | clearR | overallR
  deriving DecidableEq, Repr

/-- The guard of the ideal-weather branch of the cascade:
`weather?.current.condition === 'clear' && 60 ≤ temp ≤ 80`. -/
def clearNiceOf (w : Option WeatherData) : Bool :=
  match w with
  | some wd => decide (wd.current.condition = .clear ∧
      60 ≤ wd.current.temp ∧ wd.current.temp ≤ 80)
  | none => false

/-- The reason-selection cascade: the chain of `if`/`else if` tests on
lines 359–385 of the routes-list component, evaluated top-down; the
first matching branch wins.  `reasons` is the winning route's
accumulated reason-tag list. -/
def reasonBranch (isRaining isSnowing isHot isCold isWindy isDark isLateNight
    isRushHour isWeekend : Bool) (w : Option WeatherData)
    (alerts : List WeatherAlert) (reasons : List String) : ReasonBranch :=
  if isRaining then .rainR
  else if isSnowing then .snowR
  else if isHot && reasons.contains "good shade coverage" then .heatR
  else if isCold && reasons.contains "shorter exposure time" then .coldR
  else if isWindy && reasons.contains "wind-protected" then .windR
  else if isDark && reasons.contains "well-lit for dark hours" then .darkR
  else if isLateNight && reasons.contains "safest for late night" then .lateR
  else if isRushHour && reasons.contains "wide sidewalks for rush hour" then .rushR
  else if isWeekend && reasons.contains "nice for weekend stroll" then .weekendR
  else
    match alerts with
    | a :: _ => .alertR a.title
    | [] =>
      if reasons.contains "matches your preference" then .prefR
      else if clearNiceOf w then .clearR
      else .overallR

/-- The interpolated temperature: `weather?.current.temp` renders as the
string `undefined` when no snapshot is present. -/
def tempStr (w : Option WeatherData) : String :=
  match w with
  | some wd => toString wd.current.temp
  | none => "undefined"

/-- The reason string produced by each cascade branch. -/
def reasonString (w : Option WeatherData) (displayTime : String) :
    ReasonBranch → String
  | .rainR => "🌧️ Best for rainy weather"
  | .snowR => "❄️ Safest in snow"
  | .heatR => "☀️ Best for " ++ tempStr w ++ "°F heat"
  | .coldR => "🥶 Quickest in " ++ tempStr w ++ "°F cold"
  | .windR => "💨 Wind-protected route"
  | .darkR => "🌙 Best for " ++ displayTime ++ " walk"
  | .lateR => "🌙 Safest for late night"
  | .rushR => "🚶 Best for rush hour"
  | .weekendR => "🌳 Great for weekend walk"
  | .alertR t => "⚠️ " ++ t
  | .prefR => "★ Recommended for you"
  | .clearR => "☀️ Great walking weather"
  | .overallR => "★ Best overall"

/-- `getSmartRecommendation`: returns `null` for an empty route list;
otherwise scores every route, stable-sorts by descending score, takes
the first entry `best` and produces `{ routeId, routeType, reason }`
through the reason cascade. -/
def getSmartRecommendation (routes : List RouteData) (pref : Preference)
    (w : Option WeatherData) (month : ℕ) (tc : TimeContext)
    (alerts : List WeatherAlert) : Option Recommendation :=
  if routes.isEmpty then none
  else
    match (sortDesc (scoredRoutesOf pref w month tc routes)).head? with
    | none => none
    | some best =>
      some
        { routeId := best.route.id
          routeType := best.route.type
          reason := reasonString w tc.displayTime
            (reasonBranch (isRainingOf w) (isSnowingOf w) (isHotOf w month)
              (isColdOf w) (isWindyOf w) tc.isDark
              (tc.timeOfDay = .lateNight) tc.isRushHour tc.isWeekend
              w alerts best.reasons) }

/-- Modelled from the spec (§4.3): the score a route would get if, with
the weather snapshot absent, only the base preference match, the
time-conditioned rules, the context-free bonuses and the length penalty
contributed.  Used to check the claim that weather-conditioned rules
contribute only when a snapshot is present. -/
def specScoreWithoutWeather (pref : Preference) (tc : TimeContext)
    (avg : ℚ) (r : RouteData) : ℚ :=
  prefScore pref r
    + darkScore tc.isDark r
    + lateScore (tc.timeOfDay = .lateNight) r
    + rushScore tc.isRushHour r
    + weekendScore tc.isWeekend tc.isDark false false r
    + bonusScore r
    + lengthPenalty avg r

/-! ### Route characterization and route-set construction
(`RouteContext.tsx`) -/

/-- A raw maneuver step from the Routing Provider (one element of
`route.legs[0].steps`): only the fields the characterizer and the
transformation read. -/
structure RawStep where
  instruction : String := ""
  distance : ℚ := 0
  duration : ℚ := 0
  maneuverType : String
  modifier : Option String := none
  location : ℚ × ℚ := (0, 0)
  deriving DecidableEq, Repr

/-- A raw path from the Routing Provider; `steps` stands for
`route.legs[0]?.steps || []`. -/
structure RawRoute where
  distance : ℚ
  duration : ℚ
  steps : List RawStep
  deriving DecidableEq, Repr

/-- Round-robin type assignment
`['fastest','safest','comfortable','scenic'][index % 4]`. -/
def routeTypeOfIndex (i : ℕ) : RouteType :=
  match i % 4 with
  | 0 => .fastest
  | 1 => .safest
  | 2 => .comfortable
  | _ => .scenic

/-- The `titles` record of `fetchRoutes`. -/
def titleOf : RouteType → String
  | .fastest => "Fastest Route"
  | .safest => "Safest Route"
  | .comfortable => "Most Comfortable"
  | .scenic => "Scenic Route"

/-- Count of maneuvers of kind `'turn'` or `'end of road'` in a raw
step list — the crossing count derived in `analyzeRouteCharacteristics`. -/
def turnEndCount (steps : List RawStep) : ℕ :=
  (steps.filter (fun s =>
    decide (s.maneuverType = "turn" ∨ s.maneuverType = "end of road"))).length

/-- The portion of `RouteData` produced by `analyzeRouteCharacteristics`
(tags, night-friendliness, safety and comfort profiles). -/
structure Characteristics where
  tags : List String
  nightFriendly : Bool
  safety : SafetyProfile
  comfort : ComfortProfile
  deriving DecidableEq, Repr

/-- `analyzeRouteCharacteristics(route, index)`: counts turn/end-of-road
maneuvers, picks the type by round-robin on `index`, and returns the
fixed per-type template (only the crossing-derived counts vary with the
input). -/
def analyzeRouteCharacteristics (raw : RawRoute) (index : ℕ) : Characteristics :=
  let crossingCount := turnEndCount raw.steps
  match routeTypeOfIndex index with
  | .fastest =>
    { tags := ["Fastest", "Direct route"]
      nightFriendly := false
      safety :=
        { lighting := "Mixed lighting, some darker blocks"
          lightingLevel := .mixed
          crossings := toString crossingCount ++ " major intersections"
          crossingCount := crossingCount
          sidewalks := "Standard sidewalk coverage"
          sidewalkCoverage := .partialCover
          busyRoads := (crossingCount + 1) / 2 }
      comfort :=
        { hills := "Direct route, may include hills"
          hillLevel := .someHills
          shade := "Limited shade (~30%)"
          shadePercent := 30
          restSpots := "Few rest areas"
          restSpotCount := 1
          restSpotTypes := [.cafe] } }
  | .safest =>
    { tags := ["High safety", "Well lit", "Night friendly"]
      nightFriendly := true
      safety :=
        { lighting := "Well lit throughout"
          lightingLevel := .wellLit
          crossings := toString (max 1 (crossingCount - 1)) ++ " signalized crosswalks"
          crossingCount := max 1 (crossingCount - 1)
          sidewalks := "Continuous sidewalks"
          sidewalkCoverage := .continuous
          busyRoads := (crossingCount + 2) / 3 }
      comfort :=
        { hills := "Moderate terrain"
          hillLevel := .flat
          shade := "About 60% shaded"
          shadePercent := 60
          restSpots := "Multiple benches available"
          restSpotCount := 3
          restSpotTypes := [.bench, .cafe] } }
  | .comfortable =>
    { tags := ["High comfort", "Shaded", "Rest stops"]
      nightFriendly := true
      safety :=
        { lighting := "Well lit with good visibility"
          lightingLevel := .wellLit
          crossings := toString crossingCount ++ " controlled crossings"
          crossingCount := crossingCount
          sidewalks := "Wide sidewalks throughout"
          sidewalkCoverage := .continuous
          busyRoads := 1 }
      comfort :=
        { hills := "Gentle, mostly flat terrain"
          hillLevel := .flat
          shade := "Mostly shaded (75%)"
          shadePercent := 75
          restSpots := "Benches, cafés, and parks nearby"
          restSpotCount := 5
          restSpotTypes := [.bench, .cafe, .park] } }
  | .scenic =>
    { tags := ["Scenic views", "Parks", "Quieter streets"]
      nightFriendly := false
      safety :=
        { lighting := "Mixed lighting along parks"
          lightingLevel := .mixed
          crossings := toString (crossingCount + 1) ++ " crossings"
          crossingCount := crossingCount + 1
          sidewalks := "Park paths and sidewalks"
          sidewalkCoverage := .continuous
          busyRoads := 0 }
      comfort :=
        { hills := "Some gentle hills through parks"
          hillLevel := .someHills
          shade := "Tree-lined paths (80%)"
          shadePercent := 80
          restSpots := "Parks with benches throughout"
          restSpotCount := 6
          restSpotTypes := [.bench, .park, .cafe] } }

/-- The per-step comfort annotation added by `fetchRoutes`
(`stepsWithComfort`): lighting and terrain cycle by `stepIndex % 3`,
shade alternates, a `'turn'` maneuver yields a `'signal'` crossing, and
every fourth step carries a `'cafe'` rest spot. -/
def stepWithComfort (stepIndex : ℕ) (s : RawStep) : RouteStep :=
  { instruction := s.instruction
    distance := s.distance
    duration := s.duration
    maneuver := { kind := s.maneuverType, modifier := s.modifier, location := s.location }
    comfort := some
      { lighting :=
          match stepIndex % 3 with
          | 0 => .wellLit
          | 1 => .mixed
          | _ => .dark
        terrain :=
          match stepIndex % 3 with
          | 0 => .flat
          | 1 => .slightIncline
          | _ => .flat
        shade := stepIndex % 2 = 0
        crossing := if s.maneuverType = "turn" then some .signal else none
        restSpot := if stepIndex % 4 = 0 then some .cafe else none } }

/-- Index-aware map used for `route.legs[0]?.steps.map((step, stepIndex) => ...)`. -/
def stepsWithComfort (i : ℕ) : List RawStep → List RouteStep
  | [] => []
  | s :: ss => stepWithComfort i s :: stepsWithComfort (i + 1) ss

/-- One entry of `data.routes.map((route, index) => ...)` in
`fetchRoutes`: id, round-robin type, title, raw distance/duration,
comfort-annotated steps, and the characteristics of
`analyzeRouteCharacteristics`. -/
def transformRoute (index : ℕ) (raw : RawRoute) : RouteData :=
  let c := analyzeRouteCharacteristics raw index
  { id := "route-" ++ toString index
    type := routeTypeOfIndex index
    title := titleOf (routeTypeOfIndex index)
    distance := raw.distance
    duration := raw.duration
    steps := stepsWithComfort 0 raw.steps
    tags := c.tags
    nightFriendly := c.nightFriendly
    safety := c.safety
    comfort := c.comfort }

/-- The indexed map over the Routing Provider's raw path list. -/
def transformAll (i : ℕ) : List RawRoute → List RouteData
  | [] => []
  | r :: rs => transformRoute i r :: transformAll (i + 1) rs

/-- One entry of the `routeProfiles` array used by the duplication loop:
the full per-type template plus the duration multiplier. -/
structure RouteProfile where
  type : RouteType
  title : String
  multiplier : ℚ
  tags : List String
  nightFriendly : Bool
  safety : SafetyProfile
  comfort : ComfortProfile
  deriving DecidableEq, Repr

/-- `routeProfiles[0]` (fastest, multiplier 1). -/
def fastestProfile : RouteProfile :=
  { type := .fastest
    title := "Fastest Route"
    multiplier := 1
    tags := ["Fastest", "Direct route"]
    nightFriendly := false
    safety :=
      { lighting := "Mixed lighting, some darker blocks"
        lightingLevel := .mixed
        crossings := "4 major intersections"
        crossingCount := 4
        sidewalks := "Standard sidewalk coverage"
        sidewalkCoverage := .partialCover
        busyRoads := 2 }
    comfort :=
      { hills := "Direct route, may include hills"
        hillLevel := .someHills
        shade := "Limited shade (~30%)"
        shadePercent := 30
        restSpots := "Few rest areas"
        restSpotCount := 1
        restSpotTypes := [.cafe] } }

/-- `routeProfiles[1]` (safest, multiplier 1.1). -/
def safestProfile : RouteProfile :=
  { type := .safest
    title := "Safest Route"
    multiplier := 1.1
    tags := ["High safety", "Well lit", "Night friendly"]
    nightFriendly := true
    safety :=
      { lighting := "Well lit throughout"
        lightingLevel := .wellLit
        crossings := "3 signalized crosswalks"
        crossingCount := 3
        sidewalks := "Continuous sidewalks"
        sidewalkCoverage := .continuous
        busyRoads := 1 }
    comfort :=
      { hills := "Moderate terrain"
        hillLevel := .flat
        shade := "About 60% shaded"
        shadePercent := 60
        restSpots := "Multiple benches available"
        restSpotCount := 3
        restSpotTypes := [.bench, .cafe] } }

/-- `routeProfiles[2]` (comfortable, multiplier 1.15). -/
def comfortableProfile : RouteProfile :=
  { type := .comfortable
    title := "Most Comfortable"
    multiplier := 1.15
    tags := ["High comfort", "Shaded", "Rest stops"]
    nightFriendly := true
    safety :=
      { lighting := "Well lit with good visibility"
        lightingLevel := .wellLit
        crossings := "3 controlled crossings"
        crossingCount := 3
        sidewalks := "Wide sidewalks throughout"
        sidewalkCoverage := .continuous
        busyRoads := 1 }
    comfort :=
      { hills := "Gentle, mostly flat terrain"
        hillLevel := .flat
        shade := "Mostly shaded (75%)"
        shadePercent := 75
        restSpots := "Benches, cafés, and parks nearby"
        restSpotCount := 5
        restSpotTypes := [.bench, .cafe, .park] } }

/-- `routeProfiles[index]`; the duplication loop only reads indices 1
and 2. -/
def profileAt (i : ℕ) : RouteProfile :=
  match i with
  | 0 => fastestProfile
  | 1 => safestProfile
  | _ => comfortableProfile

/-- The body of the duplication loop: the entry pushed when
`transformedRoutes.length = i`, built from the first result `base` with
the profile's template, `duration × multiplier` and
`distance × (1 + index × 0.05)`. -/
def synthRoute (base : RouteData) (i : ℕ) : RouteData :=
  let p := profileAt i
  { base with
      id := "route-" ++ toString i
      type := p.type
      title := p.title
      tags := p.tags
      nightFriendly := p.nightFriendly
      duration := base.duration * p.multiplier
      distance := base.distance * (1 + i * 0.05)
      safety := p.safety
      comfort := p.comfort }

/-- `while (transformedRoutes.length < 3) { ...push... }`: pads the
transformed list to three entries, synthesizing each new entry from the
first element (which the loop never changes). -/
def ensureThree (l : List RouteData) : List RouteData :=
  match l with
  | [] => []
  | b :: rest =>
    if hlt : (b :: rest).length < 3 then
      ensureThree (b :: (rest ++ [synthRoute b (b :: rest).length]))
    else b :: rest
termination_by 3 - l.length
decreasing_by
  have h3 : (b :: rest).length < 3 := hlt
  simp only [List.length_cons, List.length_append] at h3 ⊢
  omega

/-- The successful-response path of `fetchRoutes`: transform every raw
path, then pad the list to at least three routes.  The source throws
before this point when the provider returns no routes, so the empty case
is unreachable and returns the empty list. -/
def buildRoutes (raws : List RawRoute) : List RouteData :=
  ensureThree (transformAll 0 raws)

/-- The route-selection state held by `RouteProvider` (the map token is
a module constant and is omitted). -/
structure RouteState where
  origin : Option Location
  destination : Option Location
  routes : List RouteData
  selectedRoute : Option RouteData
  transportMode : TransportMode
  isLoading : Bool
  error : Option String
  deriving DecidableEq, Repr

/-- `clearAll`: resets origin, destination, routes, selected route and
error. -/
def clearAll (s : RouteState) : RouteState :=
  { s with
      origin := none
      destination := none
      routes := []
      selectedRoute := none
      error := none }

/-! ### Weather context (`WeatherContext.tsx`) -/

/-- The weather state held by `WeatherProvider` (sun-times bookkeeping
is not read by any claim and is omitted). -/
structure WeatherState where
  weather : Option WeatherData
  isLoading : Bool
  error : Option String
  alerts : List WeatherAlert
  deriving DecidableEq, Repr

/-- The initial weather state of the provider: no snapshot, not loading,
no error, no alerts. -/
def initialWeatherState : WeatherState :=
  { weather := none, isLoading := false, error := none, alerts := [] }

/-- `Math.round` on a rational, matching rounding of the JS value. -/
def jsRound (q : ℚ) : ℤ := round q

/-- The `mockWeather` object built by `fetchWeather` when no API key is
configured: clear sky at 72°F with twelve cooling clear hourly points.
`now` is `Date.now()` in milliseconds. -/
def mockWeatherData (now : ℤ) : WeatherData :=
  { current :=
      { temp := 72
        feelsLike := 70
        condition := .clear
        description := "clear sky"
        icon := "01d"
        precipitation := 0
        humidity := 45
        windSpeed := 8
        uvIndex := 5
        visibility := 10000 }
    hourly := (List.range 12).map (fun i =>
      { time := now + i * 3600000
        temp := 72 - i
        condition := .clear
        description := "clear sky"
        icon := if i < 6 then "01d" else "01n"
        precipProbability := 10
        precipitation := 0 })
    lastUpdated := now
    locationName := "New York" }

/-- `generateAlerts(data)`: the fixed-order rule list; each rule
appends its alert independently.  `now` is `Date.now()`, used only for
the minutes-until-rain message. -/
def generateAlerts (now : ℤ) (data : WeatherData) : List WeatherAlert :=
  let current := data.current
  let rainSoon := (data.hourly.take 2).find? (fun h =>
    decide (h.precipProbability > 50 ∨ h.condition = .rain ∨ h.condition = .drizzle))
  (match rainSoon with
    | some h =>
      if current.condition ≠ .rain then
        [{ severity := .yellow
           title := "Rain Expected"
           message := "Rain likely in ~" ++ toString (jsRound ((h.time - now : ℚ) / 60000))
             ++ " min—covered route recommended"
           icon := "🌧️" }]
      else []
    | none => [])
  ++ (if current.condition = .thunderstorm ∨
        (data.hourly.take 3).any (fun h => decide (h.condition = .thunderstorm)) then
      [{ severity := .red
         title := "Thunderstorm Warning"
         message := "Consider postponing or taking transit"
         icon := "⛈️" }]
    else [])
  ++ (if current.temp > 90 ∨ current.feelsLike > 95 then
      [{ severity := .orange
         title := "Heat Advisory"
         message := "Stay hydrated, take breaks in shade"
         icon := "🥵" }]
    else [])
  ++ (if current.temp < 32 ∨ current.feelsLike < 25 then
      [{ severity := .orange
         title := "Cold Weather"
         message := "Bundle up, prefer shorter or wind-protected routes"
         icon := "🥶" }]
    else [])
  ++ (if current.windSpeed > 20 then
      [{ severity := .yellow
         title := "Windy Conditions"
         message := "Wind-protected routes recommended"
         icon := "💨" }]
    else [])
  ++ (if current.visibility < 1000 then
      [{ severity := .yellow
         title := "Low Visibility"
         message := "Fog or mist—prefer well-lit main streets"
         icon := "🌫️" }]
    else [])
  ++ (if current.condition = .rain ∨ current.condition = .drizzle then
      [{ severity := .yellow
         title := "Currently Raining"
         message := "Covered walkways prioritized"
         icon := "☔" }]
    else [])
  ++ (if current.condition = .snow then
      [{ severity := .orange
         title := "Snow"
         message := "Watch for slippery surfaces, avoid steep slopes"
         icon := "❄️" }]
    else [])

/-- The outcome of the live weather fetch, abstracting the two
OpenWeatherMap endpoints: `ok w` stands for a successful response
already normalized to `WeatherData` (by the mapping code of
`fetchWeather`), `err` for a network failure or non-ok response of both
endpoints (the thrown error reaching the `catch`). -/
inductive FetchResult
  | ok (w : WeatherData)
  | err
  deriving DecidableEq, Repr

/-- `fetchWeather`, as a transition on the provider state.  `apiKey` is
the module constant `OPENWEATHER_API_KEY` (shipped empty, to be filled
by the user).  With no key: install the mock snapshot and its alerts and
return (error untouched).  With a key: `setError(null)`, then on success
install the fetched data and its alerts; on failure set the error
message and change nothing else; `finally` clears the loading flag. -/
def fetchWeather (apiKey : String) (now : ℤ) (result : FetchResult)
    (s : WeatherState) : WeatherState :=
  if apiKey = "" then
    let mock := mockWeatherData now
    { s with weather := some mock, alerts := generateAlerts now mock }
  else
    match result with
    | .ok w =>
      { s with
          isLoading := false
          error := none
          weather := some w
          alerts := generateAlerts now w }
    | .err =>
      { s with
          isLoading := false
          error := some "Failed to fetch weather data" }

/-- `getRouteWeatherTags()`: weather-derived route tags; empty when no
snapshot is present. -/
def getRouteWeatherTags (w : Option WeatherData) : List String :=
  match w with
  | none => []
  | some data =>
    let current := data.current
    (if current.condition = .rain ∨ current.condition = .drizzle ∨
        current.condition = .snow then
      ["☂️ Covered routes preferred"]
    else [])
    ++ (if current.temp > 85 ∨ current.uvIndex > 6 then
        ["🌳 Shaded routes preferred"]
      else [])
    ++ (if current.windSpeed > 15 then ["🏠 Wind-protected"] else [])
    ++ (if current.condition = .clear ∧ 60 ≤ current.temp ∧ current.temp ≤ 80 then
        ["☀️ Great walking weather"]
      else [])
    ++ (if current.condition = .fog ∨ current.visibility < 2000 then
        ["🌫️ Low visibility"]
      else [])

/-! ### Concrete fixtures used by witnesses and counterexamples -/

/-- A daytime weekday time context with nothing special set. -/
def demoTime : TimeContext :=
  { hour := 10, minute := 0, timeOfDay := .morning, isDark := false,
    isRushHour := false, isWeekend := false, displayTime := "10:00 AM" }

/-- A dark-hours time context. -/
def darkTime : TimeContext :=
  { hour := 22, minute := 0, timeOfDay := .night, isDark := true,
    isRushHour := false, isWeekend := false, displayTime := "10:00 PM" }

/-- A fastest-type route with the canonical fastest fingerprint. -/
def demoRouteFastest : RouteData :=
  { id := "route-0", type := .fastest, title := "Fastest Route",
    distance := 1500, duration := 900, steps := [],
    tags := ["Fastest", "Direct route"], nightFriendly := false,
    safety :=
      { lighting := "Mixed lighting, some darker blocks",
        lightingLevel := .mixed, crossings := "4 major intersections",
        crossingCount := 4, sidewalks := "Standard sidewalk coverage",
        sidewalkCoverage := .partialCover, busyRoads := 2 },
    comfort :=
      { hills := "Direct route, may include hills",
        hillLevel := .someHills, shade := "Limited shade (~30%)",
        shadePercent := 30, restSpots := "Few rest areas",
        restSpotCount := 1, restSpotTypes := [.cafe] } }

/-- A current-weather snapshot with active rain at 60°F. -/
def rainWeather : WeatherData :=
  { current :=
      { temp := 60, feelsLike := 58, condition := .rain,
        description := "light rain", icon := "10d", precipitation := 1,
        humidity := 80, windSpeed := 5, uvIndex := 1, visibility := 8000 },
    hourly := [], lastUpdated := 0, locationName := "New York" }

/-- A well-lit, night-friendly variant of the demo route. -/
def wellLitRoute : RouteData :=
  { demoRouteFastest with
      id := "route-lit"
      nightFriendly := true
      safety := { demoRouteFastest.safety with lightingLevel := .wellLit } }

/-- A dark, not night-friendly variant of the demo route, otherwise
identical to `wellLitRoute`. -/
def unlitRoute : RouteData :=
  { demoRouteFastest with
      id := "route-unlit"
      nightFriendly := false
      safety := { demoRouteFastest.safety with lightingLevel := .dark } }

/-- First of two routes that tie on every scored attribute. -/
def routeA : RouteData := { demoRouteFastest with id := "route-A" }

/-- Second of two routes that tie on every scored attribute. -/
def routeB : RouteData := { demoRouteFastest with id := "route-B" }

/-- A raw provider path with no steps. -/
def demoRaw : RawRoute := { distance := 1000, duration := 1000, steps := [] }

/-- A raw provider path with two turn maneuvers and one depart. -/
def demoRawTurns : RawRoute :=
  { distance := 500, duration := 400,
    steps := [{ maneuverType := "turn" }, { maneuverType := "turn" },
      { maneuverType := "depart" }] }

/-! ### Supporting lemmas on the stable sort -/

/-- Membership through stable insertion. -/
theorem mem_insertDesc {a x : ScoredRoute} {l : List ScoredRoute} :
    a ∈ insertDesc x l ↔ a = x ∨ a ∈ l := by
  induction l with
  | nil => simp [insertDesc]
  | cons y ys ih =>
    by_cases h : x.score ≥ y.score
    · simp [insertDesc, h]
    · simp [insertDesc, h, ih]
      tauto

/-- Stable insertion adds one element. -/
theorem length_insertDesc (x : ScoredRoute) (l : List ScoredRoute) :
    (insertDesc x l).length = l.length + 1 := by
  induction l with
  | nil => simp [insertDesc]
  | cons y ys ih =>
    by_cases h : x.score ≥ y.score
    · simp [insertDesc, h]
    · simp [insertDesc, h, ih]

/-- The stable sort preserves length. -/
theorem length_sortDesc (l : List ScoredRoute) :
    (sortDesc l).length = l.length := by
  induction l with
  | nil => rfl
  | cons x xs ih => simp [sortDesc, length_insertDesc, ih]

/-- The stable sort preserves membership. -/
theorem mem_sortDesc {a : ScoredRoute} {l : List ScoredRoute} :
    a ∈ sortDesc l ↔ a ∈ l := by
  induction l with
  | nil => simp [sortDesc]
  | cons x xs ih => simp [sortDesc, mem_insertDesc, ih]

/-- Every member of a list whose indexed scores are bounded is bounded. -/
theorem score_le_of_forall_get {l : List ScoredRoute} {c : ℚ}
    (h : ∀ j (hj : j < l.length), (l.get ⟨j, hj⟩).score ≤ c) :
    ∀ b ∈ l, b.score ≤ c := by
  induction l with
  | nil => intro b hb; cases hb
  | cons x xs ih =>
    intro b hb
    rw [List.mem_cons] at hb
    rcases hb with rfl | hb
    · exact h 0 (Nat.succ_pos _)
    · exact ih (fun j hj => h (j + 1) (Nat.succ_lt_succ hj)) b hb

/-- The head of the stable descending sort is the earliest element of
maximal score: if index `i` has maximal score and strictly exceeds every
earlier index, the sorted head is the element at `i`. -/
theorem head_sortDesc_first_argmax (l : List ScoredRoute) (i : ℕ)
    (hi : i < l.length)
    (hmax : ∀ j (hj : j < l.length), (l.get ⟨j, hj⟩).score ≤ (l.get ⟨i, hi⟩).score)
    (hfirst : ∀ j (hj : j < l.length), j < i →
      (l.get ⟨j, hj⟩).score < (l.get ⟨i, hi⟩).score) :
    (sortDesc l).head? = some (l.get ⟨i, hi⟩) := by
  induction l generalizing i with
  | nil => exact absurd hi (Nat.not_lt_zero i)
  | cons x xs ih =>
    cases i with
    | zero =>
      have hx : ∀ b ∈ sortDesc xs, b.score ≤ x.score := by
        intro b hb
        refine score_le_of_forall_get (fun j hj => ?_) b (mem_sortDesc.mp hb)
        exact hmax (j + 1) (Nat.succ_lt_succ hj)
      cases hs : sortDesc xs with
      | nil => simp [sortDesc, hs, insertDesc]
      | cons b t =>
        have hb : x.score ≥ b.score := hx b (by rw [hs]; exact List.mem_cons_self b t)
        simp [sortDesc, hs, insertDesc, hb]
    | succ i' =>
      have hi' : i' < xs.length := Nat.lt_of_succ_lt_succ hi
      have hmax' : ∀ j (hj : j < xs.length),
          (xs.get ⟨j, hj⟩).score ≤ (xs.get ⟨i', hi'⟩).score := by
        intro j hj
        exact hmax (j + 1) (Nat.succ_lt_succ hj)
      have hfirst' : ∀ j (hj : j < xs.length), j < i' →
          (xs.get ⟨j, hj⟩).score < (xs.get ⟨i', hi'⟩).score := by
        intro j hj hji
        exact hfirst (j + 1) (Nat.succ_lt_succ hj) (Nat.succ_lt_succ hji)
      have hhead := ih i' hi' hmax' hfirst'
      have hx : x.score < (xs.get ⟨i', hi'⟩).score :=
        hfirst 0 (Nat.succ_pos _) (Nat.succ_pos _)
      cases hs : sortDesc xs with
      | nil => rw [hs] at hhead; cases hhead
      | cons b t =>
        rw [hs] at hhead
        have hb : b = xs.get ⟨i', hi'⟩ := by
          simpa using hhead
        subst hb
        have hnot : ¬ (xs.get ⟨i', hi'⟩).score ≤ x.score := not_le.mpr hx
        have hstep : sortDesc (x :: xs) = insertDesc x (sortDesc xs) := rfl
        rw [hstep, hs, insertDesc, if_neg hnot]
        rfl

/-! ### Claim theorems -/

/-- C10: `clearAll` resets origin, destination, the route list, the
selected route and the error state, and leaves the transport mode (and
the loading flag) unchanged. -/
theorem clearAll_frame (s : RouteState) :
    (clearAll s).origin = none ∧ (clearAll s).destination = none ∧
    (clearAll s).routes = [] ∧ (clearAll s).selectedRoute = none ∧
    (clearAll s).error = none ∧
    (clearAll s).transportMode = s.transportMode ∧
    (clearAll s).isLoading = s.isLoading := by
  simp [clearAll]

/-- C5, counterexample: for the safest round-robin slot (index 1) the
reported crossing count is `max 1 (n − 1)`, not the raw turn/end-of-road
count `n`: with two turns the profile reports 1. -/
theorem crossingCount_counterexample :
    (analyzeRouteCharacteristics demoRawTurns 1).safety.crossingCount = 1 ∧
    turnEndCount demoRawTurns.steps = 2 ∧
    (analyzeRouteCharacteristics demoRawTurns 1).safety.crossingCount ≠
      turnEndCount demoRawTurns.steps := by decide

/-- C5, amended: the crossing count reported by
`analyzeRouteCharacteristics` equals the raw turn/end-of-road count `n`
for the fastest and comfortable slots, `max 1 (n − 1)` for the safest
slot, and `n + 1` for the scenic slot. -/
theorem crossingCount_by_type (raw : RawRoute) (index : ℕ) :
    (analyzeRouteCharacteristics raw index).safety.crossingCount =
      (match routeTypeOfIndex index with
        | .fastest => turnEndCount raw.steps
        | .safest => max 1 (turnEndCount raw.steps - 1)
        | .comfortable => turnEndCount raw.steps
        | .scenic => turnEndCount raw.steps + 1) := by
  cases h : routeTypeOfIndex index <;>
    simp [analyzeRouteCharacteristics, h]

/-- C4, counterexample: with the weather snapshot absent but the current
month index 6 (July), the hot-weather rule still fires through the
seasonal heuristic, so the score is not determined by the base, time,
bonus and length parts alone. -/
theorem weatherGate_counterexample :
    scoreRoute .fast none 6 demoTime 900 demoRouteFastest = 42 ∧
    specScoreWithoutWeather .fast demoTime 900 demoRouteFastest = 30 ∧
    scoreRoute .fast none 6 demoTime 900 demoRouteFastest ≠
      specScoreWithoutWeather .fast demoTime 900 demoRouteFastest := by
  refine ⟨?_, ?_, ?_⟩ <;>
    norm_num +decide [scoreRoute, specScoreWithoutWeather, prefScore,
      rainSnowScore, hotScore, coldScore, windScore, darkScore, lateScore,
      rushScore, middayScore, weekendScore, bonusScore, lengthPenalty,
      isRainingOf, isSnowingOf, isHotOf, isColdOf, isWindyOf, prefMap,
      demoRouteFastest, demoTime]

/-- C4, amended: with the weather snapshot absent, the rain/snow, cold,
windy and midday-sun rules never contribute, and outside the seasonal
months June–September (0-based month indices 5–8) the hot-weather rule
does not either, so the score reduces to the base preference match, the
time-conditioned rules, the context-free bonuses and the length
penalty. -/
theorem weatherGate_amended (pref : Preference) (month : ℕ)
    (tc : TimeContext) (avg : ℚ) (r : RouteData)
    (hmonth : ¬ (5 ≤ month ∧ month ≤ 8)) :
    scoreRoute pref none month tc avg r =
      specScoreWithoutWeather pref tc avg r := by
  have hhot : isHotOf none month = false := by
    simp [isHotOf]
    omega
  simp [scoreRoute, specScoreWithoutWeather, isRainingOf, isSnowingOf,
    isColdOf, isWindyOf, hhot, rainSnowScore, hotScore, coldScore,
    windScore, middayScore]

/-- C4, witness: the amended decomposition at a concrete winter input. -/
theorem weatherGate_amended_witness :
    scoreRoute .fast none 0 demoTime 900 demoRouteFastest =
      specScoreWithoutWeather .fast demoTime 900 demoRouteFastest :=
  weatherGate_amended .fast 0 demoTime 900 demoRouteFastest (by decide)

/-- C7: under darkness, a well-lit night-friendly route strictly
outscores an otherwise-identical dark, not night-friendly route: the
dark-hours block contributes `+75` against `−20` and every other block
agrees. -/
theorem darkMonotonicity (pref : Preference) (w : Option WeatherData)
    (month : ℕ) (tc : TimeContext) (avg : ℚ) (r1 r2 : RouteData)
    (hdark : tc.isDark = true)
    (h1l : r1.safety.lightingLevel = .wellLit) (h1n : r1.nightFriendly = true)
    (h2l : r2.safety.lightingLevel = .dark) (h2n : r2.nightFriendly = false)
    (htype : r1.type = r2.type)
    (hsw : r1.safety.sidewalkCoverage = r2.safety.sidewalkCoverage)
    (hcr : r1.safety.crossingCount = r2.safety.crossingCount)
    (hcomf : r1.comfort = r2.comfort)
    (hdur : r1.duration = r2.duration) :
    scoreRoute pref w month tc avg r2 < scoreRoute pref w month tc avg r1 := by
  have e1 : prefScore pref r1 = prefScore pref r2 := by
    simp [prefScore, htype]
  have e2 : ∀ b, rainSnowScore b r1 = rainSnowScore b r2 := by
    intro b; simp [rainSnowScore, hcomf, hsw, htype]
  have e3 : ∀ b, hotScore b r1 = hotScore b r2 := by
    intro b; simp [hotScore, hcomf, htype]
  have e4 : ∀ b, coldScore b r1 = coldScore b r2 := by
    intro b; simp [coldScore, htype]
  have e5 : ∀ b, windScore b r1 = windScore b r2 := by
    intro b; simp [windScore, htype]
  have e6 : ∀ b, lateScore b r1 = lateScore b r2 := by
    intro b; simp [lateScore, htype]
  have e7 : ∀ b, rushScore b r1 = rushScore b r2 := by
    intro b; simp [rushScore, hsw, hcr]
  have e8 : ∀ b, middayScore b w r1 = middayScore b w r2 := by
    intro b; cases w <;> simp [middayScore, hcomf]
  have e9 : ∀ b1 b2 b3 b4, weekendScore b1 b2 b3 b4 r1 = weekendScore b1 b2 b3 b4 r2 := by
    intro b1 b2 b3 b4; simp [weekendScore, htype]
  have e10 : bonusScore r1 = bonusScore r2 := by
    simp [bonusScore, hsw, hcr]
  have e11 : lengthPenalty avg r1 = lengthPenalty avg r2 := by
    simp [lengthPenalty, hdur]
  have d1 : darkScore tc.isDark r1 = 75 := by
    simp [darkScore, hdark, h1l, h1n]
    norm_num
  have d2 : darkScore tc.isDark r2 = -20 := by
    simp [darkScore, hdark, h2l, h2n]
  simp only [scoreRoute, e1, e2, e3, e4, e5, e6, e7, e8, e9, e10, e11, d1, d2]
  linarith

/-- C7, witness: the dark-hours dominance at a concrete pair of routes. -/
theorem darkMonotonicity_witness :
    scoreRoute .safe none 3 darkTime 900 unlitRoute <
      scoreRoute .safe none 3 darkTime 900 wellLitRoute :=
  darkMonotonicity .safe none 3 darkTime 900 wellLitRoute unlitRoute
    rfl rfl rfl rfl rfl rfl rfl rfl rfl rfl

/-- C2, counterexample: under active rain the cascade claims the rain
reason even though the winning route's reason set contains no
rain-related tag (it won on the preference bonus alone), so the rain
branch does not require the matching tag. -/
theorem reasonCascade_counterexample :
    getSmartRecommendation [demoRouteFastest] .fast (some rainWeather) 3 demoTime [] =
      some { routeId := "route-0", routeType := .fastest,
             reason := "🌧️ Best for rainy weather" } ∧
    reasonsOf .fast (some rainWeather) 3 demoTime demoRouteFastest =
      ["matches your preference"] ∧
    "has shelter spots" ∉ reasonsOf .fast (some rainWeather) 3 demoTime demoRouteFastest ∧
    "continuous sidewalks" ∉ reasonsOf .fast (some rainWeather) 3 demoTime demoRouteFastest := by
  decide

set_option maxHeartbeats 4000000 in
/-- C2, amended: only the heat, cold, wind, darkness, late-night,
rush-hour, weekend and preference branches of the reason cascade require
the matching tag in the winning route's reason set (together with their
contextual condition); the rain and snow branches fire on the contextual
condition alone. -/
theorem reasonCascade_tag_guards
    (isRaining isSnowing isHot isCold isWindy isDark isLateNight
      isRushHour isWeekend : Bool) (w : Option WeatherData)
    (alerts : List WeatherAlert) (reasons : List String) :
    (reasonBranch isRaining isSnowing isHot isCold isWindy isDark isLateNight
        isRushHour isWeekend w alerts reasons = .heatR →
      isHot = true ∧ reasons.contains "good shade coverage" = true) ∧
    (reasonBranch isRaining isSnowing isHot isCold isWindy isDark isLateNight
        isRushHour isWeekend w alerts reasons = .coldR →
      isCold = true ∧ reasons.contains "shorter exposure time" = true) ∧
    (reasonBranch isRaining isSnowing isHot isCold isWindy isDark isLateNight
        isRushHour isWeekend w alerts reasons = .windR →
      isWindy = true ∧ reasons.contains "wind-protected" = true) ∧
    (reasonBranch isRaining isSnowing isHot isCold isWindy isDark isLateNight
        isRushHour isWeekend w alerts reasons = .darkR →
      isDark = true ∧ reasons.contains "well-lit for dark hours" = true) ∧
    (reasonBranch isRaining isSnowing isHot isCold isWindy isDark isLateNight
        isRushHour isWeekend w alerts reasons = .lateR →
      isLateNight = true ∧ reasons.contains "safest for late night" = true) ∧
    (reasonBranch isRaining isSnowing isHot isCold isWindy isDark isLateNight
        isRushHour isWeekend w alerts reasons = .rushR →
      isRushHour = true ∧ reasons.contains "wide sidewalks for rush hour" = true) ∧
    (reasonBranch isRaining isSnowing isHot isCold isWindy isDark isLateNight
        isRushHour isWeekend w alerts reasons = .weekendR →
      isWeekend = true ∧ reasons.contains "nice for weekend stroll" = true) ∧
    (reasonBranch isRaining isSnowing isHot isCold isWindy isDark isLateNight
        isRushHour isWeekend w alerts reasons = .prefR →
      reasons.contains "matches your preference" = true) := by
  refine ⟨?_, ?_, ?_, ?_, ?_, ?_, ?_, ?_⟩ <;>
    · intro h
      simp only [reasonBranch] at h
      repeat' split at h
      all_goals first
        | (rename_i hguard
           try simp only [Bool.and_eq_true] at hguard
           simpa using hguard)
        | exact absurd h (by simp)

/-- C2, witness: the heat branch of the amended guard theorem applied at
a concrete input whose reason set contains the shade tag. -/
theorem reasonCascade_tag_guards_witness :
    true = true ∧
      (["good shade coverage"] : List String).contains "good shade coverage" = true :=
  (reasonCascade_tag_guards false false true false false false false false false
    none [] ["good shade coverage"]).1 (by decide)

/-- C3, counterexample: when a credential is present and the live fetch
fails, `fetchWeather` does not install the mock snapshot and sets the
error state, contradicting the claim that failures never surface an
error. -/
theorem weatherError_counterexample :
    (fetchWeather "k" 0 .err initialWeatherState).error =
      some "Failed to fetch weather data" ∧
    (fetchWeather "k" 0 .err initialWeatherState).weather = none ∧
    ¬ ((fetchWeather "k" 0 .err initialWeatherState).weather =
        some (mockWeatherData 0) ∧
      (fetchWeather "k" 0 .err initialWeatherState).error = none) := by
  refine ⟨rfl, rfl, ?_⟩
  intro h
  cases h.2.symm.trans (rfl : (fetchWeather "k" 0 .err initialWeatherState).error =
    some "Failed to fetch weather data")

/-- C3, amended: with no credential configured, `fetchWeather` installs
the fixed clear-weather mock snapshot and leaves the error state
untouched; with a credential, a failed fetch leaves the snapshot
unchanged and sets the error state to the fixed failure message. -/
theorem weatherError_amended (apiKey : String) (now : ℤ)
    (result : FetchResult) (s : WeatherState) :
    (apiKey = "" →
      (fetchWeather apiKey now result s).weather = some (mockWeatherData now) ∧
      (fetchWeather apiKey now result s).error = s.error) ∧
    (apiKey ≠ "" → result = .err →
      (fetchWeather apiKey now result s).error =
        some "Failed to fetch weather data" ∧
      (fetchWeather apiKey now result s).weather = s.weather) := by
  constructor
  · intro h
    simp [fetchWeather, h]
  · intro h hres
    subst hres
    simp [fetchWeather, h]

/-- C3, witness: the amended failure policy at both concrete inputs. -/
theorem weatherError_amended_witness :
    ((fetchWeather "" 0 .err initialWeatherState).weather =
        some (mockWeatherData 0) ∧
      (fetchWeather "" 0 .err initialWeatherState).error =
        initialWeatherState.error) ∧
    ((fetchWeather "k" 0 .err initialWeatherState).error =
        some "Failed to fetch weather data" ∧
      (fetchWeather "k" 0 .err initialWeatherState).weather =
        initialWeatherState.weather) :=
  ⟨(weatherError_amended "" 0 .err initialWeatherState).1 rfl,
    (weatherError_amended "k" 0 .err initialWeatherState).2 (by decide) rfl⟩

/-- C9, counterexample: with the no-credential mock snapshot installed,
`getRouteWeatherTags` returns the great-walking-weather tag, not the
empty list. -/
theorem mockTags_counterexample :
    getRouteWeatherTags (some (mockWeatherData 0)) =
      ["☀️ Great walking weather"] ∧
    getRouteWeatherTags (some (mockWeatherData 0)) ≠ ([] : List String) := by
  decide

/-- C9, amended: the no-credential path installs the mock snapshot with
condition clear and temperature 72°F and generates no alerts, but the
route-weather-tags output on that snapshot is the singleton
great-walking-weather tag rather than the empty list. -/
theorem mockFallback_amended (now : ℤ) (result : FetchResult) (s : WeatherState) :
    (fetchWeather "" now result s).weather = some (mockWeatherData now) ∧
    (mockWeatherData now).current.condition = .clear ∧
    (mockWeatherData now).current.temp = 72 ∧
    (fetchWeather "" now result s).alerts = [] ∧
    getRouteWeatherTags ((fetchWeather "" now result s).weather) =
      ["☀️ Great walking weather"] := by
  have halerts : generateAlerts now (mockWeatherData now) = [] := rfl
  have htags : getRouteWeatherTags (some (mockWeatherData now)) =
      ["☀️ Great walking weather"] := rfl
  refine ⟨?_, rfl, rfl, ?_, ?_⟩ <;>
    simp [fetchWeather, halerts, htags]

/-- Unrolling of the padding loop: a list of three or more routes is
returned unchanged. -/
theorem ensureThree_of_three (a b c : RouteData) (t : List RouteData) :
    ensureThree (a :: b :: c :: t) = a :: b :: c :: t := by
  rw [ensureThree]
  simp

/-- Unrolling of the padding loop: a two-route list gains one
comfortable entry synthesized from the first route. -/
theorem ensureThree_two (a b : RouteData) :
    ensureThree [a, b] = [a, b, synthRoute a 2] := by
  rw [ensureThree]
  norm_num
  rw [ensureThree]
  norm_num

/-- Unrolling of the padding loop: a one-route list gains a safest and a
comfortable entry, both synthesized from the first route. -/
theorem ensureThree_one (a : RouteData) :
    ensureThree [a] = [a, synthRoute a 1, synthRoute a 2] := by
  rw [ensureThree]
  norm_num
  rw [ensureThree]
  norm_num
  rw [ensureThree]
  norm_num

/-- The scored list has one entry per route. -/
theorem length_scoredRoutesOf (pref : Preference) (w : Option WeatherData)
    (month : ℕ) (tc : TimeContext) (routes : List RouteData) :
    (scoredRoutesOf pref w month tc routes).length = routes.length := by
  simp [scoredRoutesOf]

/-- The scored entry at an index is the scored form of the route at the
same index. -/
theorem get_scoredRoutesOf (pref : Preference) (w : Option WeatherData)
    (month : ℕ) (tc : TimeContext) (routes : List RouteData)
    (j : ℕ) (hj : j < routes.length) :
    (scoredRoutesOf pref w month tc routes).get
        ⟨j, by rw [length_scoredRoutesOf]; exact hj⟩ =
      { route := routes.get ⟨j, hj⟩
        score := scoreRoute pref w month tc (avgDurationOf routes)
          (routes.get ⟨j, hj⟩)
        reasons := reasonsOf pref w month tc (routes.get ⟨j, hj⟩) } := by
  simp [scoredRoutesOf, List.get_eq_getElem, List.getElem_map]

/-- C1: the engine yields no recommendation exactly when the route list
is empty, and otherwise yields one recommendation whose identity and
type are those of a member of the input list. -/
theorem engine_total (routes : List RouteData) (pref : Preference)
    (w : Option WeatherData) (month : ℕ) (tc : TimeContext)
    (alerts : List WeatherAlert) :
    (getSmartRecommendation routes pref w month tc alerts = none ↔ routes = []) ∧
    (∀ rec, getSmartRecommendation routes pref w month tc alerts = some rec →
      ∃ r, r ∈ routes ∧ rec.routeId = r.id ∧ rec.routeType = r.type) := by
  cases routes with
  | nil =>
    constructor
    · simp [getSmartRecommendation]
    · intro rec hrec
      simp [getSmartRecommendation] at hrec
  | cons r0 rs =>
    cases hs : sortDesc (scoredRoutesOf pref w month tc (r0 :: rs)) with
    | nil =>
      exfalso
      have hlen := length_sortDesc (scoredRoutesOf pref w month tc (r0 :: rs))
      rw [hs, length_scoredRoutesOf] at hlen
      simp at hlen
    | cons b t =>
      have heval : getSmartRecommendation (r0 :: rs) pref w month tc alerts =
          some
            { routeId := b.route.id
              routeType := b.route.type
              reason := reasonString w tc.displayTime
                (reasonBranch (isRainingOf w) (isSnowingOf w) (isHotOf w month)
                  (isColdOf w) (isWindyOf w) tc.isDark
                  (tc.timeOfDay = .lateNight) tc.isRushHour tc.isWeekend
                  w alerts b.reasons) } := by
        simp [getSmartRecommendation, hs]
      have hmemsort : b ∈ sortDesc (scoredRoutesOf pref w month tc (r0 :: rs)) := by
        rw [hs]
        exact List.mem_cons_self b t
      obtain ⟨r, hr, hfr⟩ := List.mem_map.mp (mem_sortDesc.mp hmemsort)
      constructor
      · constructor
        · intro hnone
          rw [heval] at hnone
          cases hnone
        · intro hemp
          cases hemp
      · intro rec hrec
        rw [heval] at hrec
        obtain rfl : _ = rec := Option.some.inj hrec
        refine ⟨r, hr, ?_, ?_⟩ <;> rw [← hfr]

/-- C1, witness: a singleton route list yields exactly its own route. -/
theorem engine_total_witness :
    ∃ r, r ∈ [demoRouteFastest] ∧
      (Recommendation.mk "route-0" .fastest "★ Recommended for you").routeId = r.id ∧
      (Recommendation.mk "route-0" .fastest "★ Recommended for you").routeType = r.type :=
  (engine_total [demoRouteFastest] .fast none 3 demoTime []).2
    { routeId := "route-0", routeType := .fastest,
      reason := "★ Recommended for you" } (by decide)

/-- C8: the engine picks the earliest maximum: if index `i` has maximal
total score and strictly exceeds every earlier index, the recommendation
is the route at index `i`.  In particular, of two routes with equal
maximal score, the one earlier in the input list is chosen. -/
theorem engine_stable_tie_break (pref : Preference) (w : Option WeatherData)
    (month : ℕ) (tc : TimeContext) (alerts : List WeatherAlert)
    (routes : List RouteData) (i : ℕ) (hi : i < routes.length)
    (hmax : ∀ j (hj : j < routes.length),
      scoreRoute pref w month tc (avgDurationOf routes) (routes.get ⟨j, hj⟩) ≤
        scoreRoute pref w month tc (avgDurationOf routes) (routes.get ⟨i, hi⟩))
    (hfirst : ∀ j (hj : j < routes.length), j < i →
      scoreRoute pref w month tc (avgDurationOf routes) (routes.get ⟨j, hj⟩) <
        scoreRoute pref w month tc (avgDurationOf routes) (routes.get ⟨i, hi⟩)) :
    ∃ rec, getSmartRecommendation routes pref w month tc alerts = some rec ∧
      rec.routeId = (routes.get ⟨i, hi⟩).id := by
  have hlen := length_scoredRoutesOf pref w month tc routes
  have hi' : i < (scoredRoutesOf pref w month tc routes).length := by
    rw [hlen]; exact hi
  have hhead := head_sortDesc_first_argmax (scoredRoutesOf pref w month tc routes) i hi'
    (by
      intro j hj
      have hj' : j < routes.length := by rw [← hlen]; exact hj
      rw [get_scoredRoutesOf pref w month tc routes j hj',
        get_scoredRoutesOf pref w month tc routes i hi]
      exact hmax j hj')
    (by
      intro j hj hji
      have hj' : j < routes.length := by rw [← hlen]; exact hj
      rw [get_scoredRoutesOf pref w month tc routes j hj',
        get_scoredRoutesOf pref w month tc routes i hi]
      exact hfirst j hj' hji)
  cases routes with
  | nil => exact absurd hi (Nat.not_lt_zero i)
  | cons r0 rs =>
    cases hs : sortDesc (scoredRoutesOf pref w month tc (r0 :: rs)) with
    | nil =>
      exfalso
      have hl := length_sortDesc (scoredRoutesOf pref w month tc (r0 :: rs))
      rw [hs, length_scoredRoutesOf] at hl
      simp at hl
    | cons b t =>
      rw [hs] at hhead
      have hb : b = (scoredRoutesOf pref w month tc (r0 :: rs)).get ⟨i, hi'⟩ := by
        simpa using hhead
      rw [get_scoredRoutesOf pref w month tc (r0 :: rs) i hi] at hb
      have heval : getSmartRecommendation (r0 :: rs) pref w month tc alerts =
          some
            { routeId := b.route.id
              routeType := b.route.type
              reason := reasonString w tc.displayTime
                (reasonBranch (isRainingOf w) (isSnowingOf w) (isHotOf w month)
                  (isColdOf w) (isWindyOf w) tc.isDark
                  (tc.timeOfDay = .lateNight) tc.isRushHour tc.isWeekend
                  w alerts b.reasons) } := by
        simp [getSmartRecommendation, hs]
      exact ⟨_, heval, by rw [hb]⟩

/-- C8, witness: two routes that tie on every scored attribute; the
earlier one (`route-A`) is recommended. -/
theorem engine_stable_tie_break_witness :
    ∃ rec, getSmartRecommendation [routeA, routeB] .fast none 3 demoTime [] =
        some rec ∧
      rec.routeId = (([routeA, routeB] : List RouteData).get
        ⟨0, by decide⟩).id := by
  refine engine_stable_tie_break .fast none 3 demoTime [] [routeA, routeB] 0
    (by decide) ?_ ?_
  · intro j hj
    match j, hj with
    | 0, _ => exact le_refl _
    | 1, _ =>
      norm_num +decide [List.get, scoreRoute, prefScore, rainSnowScore,
        hotScore, coldScore, windScore, darkScore, lateScore, rushScore,
        middayScore, weekendScore, bonusScore, lengthPenalty, isRainingOf,
        isSnowingOf, isHotOf, isColdOf, isWindyOf, prefMap, routeA, routeB,
        demoRouteFastest, demoTime, avgDurationOf]
  · intro j hj hj0
    exact absurd hj0 (Nat.not_lt_zero j)

/-- C6, counterexample: from a single raw path of distance 1000 the
third (comfortable) synthesized entry has distance 1100 = 1000 × 1.10,
not 1000 × 1.15, and the second (safest) has distance 1050 = 1000 ×
1.05, not 1000 × 1.10: distance is scaled by `1 + 0.05 × index`, not by
the per-type duration multiplier. -/
theorem synthScaling_counterexample :
    (buildRoutes [demoRaw]).map (fun r => (r.type, r.duration, r.distance)) =
      [(.fastest, 1000, 1000), (.safest, 1100, 1050),
        (.comfortable, 1150, 1100)] ∧
    (1050 : ℚ) ≠ 1000 * 1.1 ∧ (1100 : ℚ) ≠ 1000 * 1.15 := by
  refine ⟨?_, by norm_num, by norm_num⟩
  simp [buildRoutes, transformAll, ensureThree_one, transformRoute,
    synthRoute, profileAt, safestProfile, comfortableProfile,
    routeTypeOfIndex, titleOf, analyzeRouteCharacteristics, demoRaw]
  norm_num

/-- C6, amended: when the provider yields fewer than three paths the
missing entries are synthesized from the first result, with duration
scaled by the per-type multiplier (safest × 1.10, comfortable × 1.15)
but distance scaled by 1 + 0.05 × index (second entry × 1.05, third
entry × 1.10); the resulting set always contains the types fastest,
safest and comfortable. -/
theorem routeSet_padding (b : RawRoute) (rest : List RawRoute) :
    ((∃ r, r ∈ buildRoutes (b :: rest) ∧ r.type = .fastest) ∧
      (∃ r, r ∈ buildRoutes (b :: rest) ∧ r.type = .safest) ∧
      (∃ r, r ∈ buildRoutes (b :: rest) ∧ r.type = .comfortable)) ∧
    (rest = [] →
      (buildRoutes [b]).map (fun r => (r.type, r.duration, r.distance)) =
        [(.fastest, b.duration, b.distance),
          (.safest, b.duration * 1.1, b.distance * 1.05),
          (.comfortable, b.duration * 1.15, b.distance * 1.1)]) ∧
    (∀ c, rest = [c] →
      (buildRoutes [b, c]).map (fun r => (r.type, r.duration, r.distance)) =
        [(.fastest, b.duration, b.distance),
          (.safest, c.duration, c.distance),
          (.comfortable, b.duration * 1.15, b.distance * 1.1)]) := by
  cases rest with
  | nil =>
    have h1 : buildRoutes [b] =
        [transformRoute 0 b, synthRoute (transformRoute 0 b) 1,
          synthRoute (transformRoute 0 b) 2] := by
      simp [buildRoutes, transformAll, ensureThree_one]
    refine ⟨⟨⟨transformRoute 0 b, ?_, rfl⟩,
      ⟨synthRoute (transformRoute 0 b) 1, ?_, rfl⟩,
      ⟨synthRoute (transformRoute 0 b) 2, ?_, rfl⟩⟩, ?_, ?_⟩
    · rw [h1]; simp
    · rw [h1]; simp
    · rw [h1]; simp
    · intro _
      rw [h1]
      simp [transformRoute, synthRoute, profileAt, safestProfile,
        comfortableProfile, routeTypeOfIndex]
      norm_num
    · intro c hc
      cases hc
  | cons c rest2 =>
    cases rest2 with
    | nil =>
      have h2 : buildRoutes [b, c] =
          [transformRoute 0 b, transformRoute 1 c,
            synthRoute (transformRoute 0 b) 2] := by
        simp [buildRoutes, transformAll, ensureThree_two]
      refine ⟨⟨⟨transformRoute 0 b, ?_, rfl⟩,
        ⟨transformRoute 1 c, ?_, rfl⟩,
        ⟨synthRoute (transformRoute 0 b) 2, ?_, rfl⟩⟩, ?_, ?_⟩
      · rw [h2]; simp
      · rw [h2]; simp
      · rw [h2]; simp
      · intro h; cases h
      · intro d hd
        obtain rfl : c = d := by cases hd; rfl
        rw [h2]
        simp [transformRoute, synthRoute, profileAt, comfortableProfile,
          routeTypeOfIndex]
        norm_num
    | cons d t =>
      have h3 : buildRoutes (b :: c :: d :: t) =
          transformRoute 0 b :: transformRoute 1 c :: transformRoute 2 d ::
            transformAll 3 t := by
        simp [buildRoutes, transformAll, ensureThree_of_three]
      refine ⟨⟨⟨transformRoute 0 b, ?_, rfl⟩,
        ⟨transformRoute 1 c, ?_, rfl⟩,
        ⟨transformRoute 2 d, ?_, rfl⟩⟩, ?_, ?_⟩
      · rw [h3]; simp
      · rw [h3]; simp
      · rw [h3]; simp
      · intro h; cases h
      · intro e he; cases he

/-- C6, witness: the amended padding equations at a concrete raw path. -/
theorem routeSet_padding_witness :
    (buildRoutes [demoRaw]).map (fun r => (r.type, r.duration, r.distance)) =
      [(.fastest, demoRaw.duration, demoRaw.distance),
        (.safest, demoRaw.duration * 1.1, demoRaw.distance * 1.05),
        (.comfortable, demoRaw.duration * 1.15, demoRaw.distance * 1.1)] :=
  (routeSet_padding demoRaw []).2.1 rfl

end SafeRoute
